import Mathlib

/-!
Verification of the StartGenie AI blueprint pipeline specification against the
repository sources.  The frontend sources (`frontend/src/lib/api.ts`, the
dashboard page, and `frontend/src/app/blueprint/[id]/page.tsx`) and the
repository's API documentation are translated directly; backend components
that the repository only documents (entry validation, the vector index, the
generation engine and the blueprint lifecycle manager) are modelled from the
specification, as marked in the individual doc comments.
-/

namespace StartGenie

/-- A small JSON value model, used to state schema-shape facts about the
`BlueprintContent` payload documented for `GET /api/blueprint/(id)`. -/
inductive Json : Type where
  | str (s : String)
  | num (n : Int)
  | arr (xs : List Json)
  | obj (fields : List (String × Json))

/-- Top-level keys of a JSON object (empty for non-objects). -/
def Json.topKeys : Json → List String
  | .obj fs => fs.map Prod.fst
  | _ => []

/-- Translated from the `startup_overview` section of the documented
`BlueprintContent` schema (API documentation, blueprint GET response). -/
structure StartupOverview where
  suggested_names : List String
  industry : String
  problem_statement : String
  solution : String
  unique_value_proposition : String
deriving DecidableEq

/-- Translated from the competitor entries of the documented
`market_analysis` section. -/
structure Competitor where
  name : String
  strength : String
  weakness : String
deriving DecidableEq

/-- Translated from the `market_analysis` section of the documented schema. -/
structure MarketAnalysis where
  target_audience : String
  market_size : String
  market_demand : String
  industry_trends : List String
  competitors : List Competitor
deriving DecidableEq

/-- Translated from the `business_model` section of the documented schema. -/
structure BusinessModel where
  revenue_streams : List String
  pricing_strategy : String
  customer_acquisition : String
deriving DecidableEq

/-- Translated from the `swot_analysis` section of the documented schema. -/
structure SwotAnalysis where
  strengths : List String
  weaknesses : List String
  opportunities : List String
  threats : List String
deriving DecidableEq

/-- Translated from the `budget_estimation` section of the documented schema.
Monetary values are JSON numbers; the documentation does not restrict their
sign, so they are embedded as integers. -/
structure BudgetEstimation where
  initial_setup_cost : Int
  monthly_operational_expenses : Int
  technology_cost : Int
  marketing_cost : Int
  breakdown : List (String × Int)
deriving DecidableEq

/-- Translated from the government-scheme entries of the documented
`funding_investment` section. -/
structure GovernmentScheme where
  name : String
  amount : String
  eligibility : String
deriving DecidableEq

/-- Translated from the `funding_investment` section of the documented schema. -/
structure FundingInvestment where
  funding_options : List String
  government_schemes : List GovernmentScheme
  investor_readiness_tips : List String
deriving DecidableEq

/-- Translated from the `legal_compliance` section of the documented schema. -/
structure LegalCompliance where
  business_registration_type : String
  required_licenses : List String
  taxation_basics : String
  compliance_checklist : List String
deriving DecidableEq

/-- Translated from the `go_to_market_strategy` section of the documented schema. -/
structure GoToMarketStrategy where
  launch_plan : String
  marketing_channels : List String
  risks : List String
  mitigation_strategies : List String
deriving DecidableEq

/-- Translated from the `action_roadmap` section of the documented schema. -/
structure ActionRoadmap where
  months_0_3 : List String
  months_3_6 : List String
  months_6_12 : List String
deriving DecidableEq

/-- Translated from the documented `content` object of the blueprint GET
response: the ten fixed top-level sections of a generated blueprint. -/
structure BlueprintContent where
  startup_overview : StartupOverview
  market_analysis : MarketAnalysis
  business_model : BusinessModel
  swot_analysis : SwotAnalysis
  budget_estimation : BudgetEstimation
  funding_investment : FundingInvestment
  legal_compliance : LegalCompliance
  go_to_market_strategy : GoToMarketStrategy
  action_roadmap : ActionRoadmap
  export_summary : String
deriving DecidableEq

/-- JSON array of strings. -/
def Json.ofStrList (xs : List String) : Json :=
  .arr (xs.map Json.str)

/-- Serialization of a competitor entry, following the documented schema. -/
def Competitor.toJson (c : Competitor) : Json :=
  .obj [("name", .str c.name), ("strength", .str c.strength),
        ("weakness", .str c.weakness)]

/-- Serialization of a government-scheme entry, following the documented schema. -/
def GovernmentScheme.toJson (g : GovernmentScheme) : Json :=
  .obj [("name", .str g.name), ("amount", .str g.amount),
        ("eligibility", .str g.eligibility)]

/-- Serialization of `BlueprintContent` to the exact JSON shape shown in the
repository's API documentation for `GET /api/blueprint/(blueprint_id)`. -/
def BlueprintContent.toJson (c : BlueprintContent) : Json :=
  .obj [
    ("startup_overview", .obj [
      ("suggested_names", Json.ofStrList c.startup_overview.suggested_names),
      ("industry", .str c.startup_overview.industry),
      ("problem_statement", .str c.startup_overview.problem_statement),
      ("solution", .str c.startup_overview.solution),
      ("unique_value_proposition", .str c.startup_overview.unique_value_proposition)]),
    ("market_analysis", .obj [
      ("target_audience", .str c.market_analysis.target_audience),
      ("market_size", .str c.market_analysis.market_size),
      ("market_demand", .str c.market_analysis.market_demand),
      ("industry_trends", Json.ofStrList c.market_analysis.industry_trends),
      ("competitors", .arr (c.market_analysis.competitors.map Competitor.toJson))]),
    ("business_model", .obj [
      ("revenue_streams", Json.ofStrList c.business_model.revenue_streams),
      ("pricing_strategy", .str c.business_model.pricing_strategy),
      ("customer_acquisition", .str c.business_model.customer_acquisition)]),
    ("swot_analysis", .obj [
      ("strengths", Json.ofStrList c.swot_analysis.strengths),
      ("weaknesses", Json.ofStrList c.swot_analysis.weaknesses),
      ("opportunities", Json.ofStrList c.swot_analysis.opportunities),
      ("threats", Json.ofStrList c.swot_analysis.threats)]),
    ("budget_estimation", .obj [
      ("initial_setup_cost", .num c.budget_estimation.initial_setup_cost),
      ("monthly_operational_expenses", .num c.budget_estimation.monthly_operational_expenses),
      ("technology_cost", .num c.budget_estimation.technology_cost),
      ("marketing_cost", .num c.budget_estimation.marketing_cost),
      ("breakdown", .obj (c.budget_estimation.breakdown.map (fun p => (p.1, Json.num p.2))))]),
    ("funding_investment", .obj [
      ("funding_options", Json.ofStrList c.funding_investment.funding_options),
      ("government_schemes", .arr (c.funding_investment.government_schemes.map GovernmentScheme.toJson)),
      ("investor_readiness_tips", Json.ofStrList c.funding_investment.investor_readiness_tips)]),
    ("legal_compliance", .obj [
      ("business_registration_type", .str c.legal_compliance.business_registration_type),
      ("required_licenses", Json.ofStrList c.legal_compliance.required_licenses),
      ("taxation_basics", .str c.legal_compliance.taxation_basics),
      ("compliance_checklist", Json.ofStrList c.legal_compliance.compliance_checklist)]),
    ("go_to_market_strategy", .obj [
      ("launch_plan", .str c.go_to_market_strategy.launch_plan),
      ("marketing_channels", Json.ofStrList c.go_to_market_strategy.marketing_channels),
      ("risks", Json.ofStrList c.go_to_market_strategy.risks),
      ("mitigation_strategies", Json.ofStrList c.go_to_market_strategy.mitigation_strategies)]),
    ("action_roadmap", .obj [
      ("months_0_3", Json.ofStrList c.action_roadmap.months_0_3),
      ("months_3_6", Json.ofStrList c.action_roadmap.months_3_6),
      ("months_6_12", Json.ofStrList c.action_roadmap.months_6_12)]),
    ("export_summary", .str c.export_summary)]

/-- The ten documented top-level keys of `BlueprintContent`, in order. -/
def contentKeys : List String :=
  ["startup_overview", "market_analysis", "business_model", "swot_analysis",
   "budget_estimation", "funding_investment", "legal_compliance",
   "go_to_market_strategy", "action_roadmap", "export_summary"]

/-- A JSON string value. -/
def IsStr : Json → Prop
  | .str _ => True
  | _ => False

/-- A JSON array all of whose elements satisfy `P`. -/
def IsArrOf (P : Json → Prop) : Json → Prop
  | .arr xs => ∀ j ∈ xs, P j
  | _ => False

/-- A JSON array of strings (possibly empty). -/
def IsStrArr : Json → Prop := IsArrOf IsStr

/-- A non-negative JSON number. -/
def IsNonnegNum : Json → Prop
  | .num n => 0 ≤ n
  | _ => False

/-- A JSON object all of whose values are non-negative numbers (the shape
of the documented `breakdown` map). -/
def AllValsNonnegNum : Json → Prop
  | .obj fs => ∀ p ∈ fs, IsNonnegNum p.2
  | _ => False

/-- Shape of the documented `startup_overview` section. -/
def CheckStartupOverview : Json → Prop
  | .obj [(k1, v1), (k2, v2), (k3, v3), (k4, v4), (k5, v5)] =>
      k1 = "suggested_names" ∧ IsStrArr v1 ∧
      k2 = "industry" ∧ IsStr v2 ∧
      k3 = "problem_statement" ∧ IsStr v3 ∧
      k4 = "solution" ∧ IsStr v4 ∧
      k5 = "unique_value_proposition" ∧ IsStr v5
  | _ => False

/-- Shape of a documented competitor entry. -/
def CheckCompetitor : Json → Prop
  | .obj [(k1, v1), (k2, v2), (k3, v3)] =>
      k1 = "name" ∧ IsStr v1 ∧ k2 = "strength" ∧ IsStr v2 ∧
      k3 = "weakness" ∧ IsStr v3
  | _ => False

/-- Shape of the documented `market_analysis` section. -/
def CheckMarketAnalysis : Json → Prop
  | .obj [(k1, v1), (k2, v2), (k3, v3), (k4, v4), (k5, v5)] =>
      k1 = "target_audience" ∧ IsStr v1 ∧
      k2 = "market_size" ∧ IsStr v2 ∧
      k3 = "market_demand" ∧ IsStr v3 ∧
      k4 = "industry_trends" ∧ IsStrArr v4 ∧
      k5 = "competitors" ∧ IsArrOf CheckCompetitor v5
  | _ => False

/-- Shape of the documented `business_model` section. -/
def CheckBusinessModel : Json → Prop
  | .obj [(k1, v1), (k2, v2), (k3, v3)] =>
      k1 = "revenue_streams" ∧ IsStrArr v1 ∧
      k2 = "pricing_strategy" ∧ IsStr v2 ∧
      k3 = "customer_acquisition" ∧ IsStr v3
  | _ => False

/-- Shape of the documented `swot_analysis` section. -/
def CheckSwot : Json → Prop
  | .obj [(k1, v1), (k2, v2), (k3, v3), (k4, v4)] =>
      k1 = "strengths" ∧ IsStrArr v1 ∧
      k2 = "weaknesses" ∧ IsStrArr v2 ∧
      k3 = "opportunities" ∧ IsStrArr v3 ∧
      k4 = "threats" ∧ IsStrArr v4
  | _ => False

/-- Shape of the documented `budget_estimation` section: the four monetary
figures and every breakdown value must be non-negative numbers. -/
def CheckBudget : Json → Prop
  | .obj [(k1, v1), (k2, v2), (k3, v3), (k4, v4), (k5, v5)] =>
      k1 = "initial_setup_cost" ∧ IsNonnegNum v1 ∧
      k2 = "monthly_operational_expenses" ∧ IsNonnegNum v2 ∧
      k3 = "technology_cost" ∧ IsNonnegNum v3 ∧
      k4 = "marketing_cost" ∧ IsNonnegNum v4 ∧
      k5 = "breakdown" ∧ AllValsNonnegNum v5
  | _ => False

/-- Shape of a documented government-scheme entry. -/
def CheckScheme : Json → Prop
  | .obj [(k1, v1), (k2, v2), (k3, v3)] =>
      k1 = "name" ∧ IsStr v1 ∧ k2 = "amount" ∧ IsStr v2 ∧
      k3 = "eligibility" ∧ IsStr v3
  | _ => False

/-- Shape of the documented `funding_investment` section. -/
def CheckFunding : Json → Prop
  | .obj [(k1, v1), (k2, v2), (k3, v3)] =>
      k1 = "funding_options" ∧ IsStrArr v1 ∧
      k2 = "government_schemes" ∧ IsArrOf CheckScheme v2 ∧
      k3 = "investor_readiness_tips" ∧ IsStrArr v3
  | _ => False

/-- Shape of the documented `legal_compliance` section. -/
def CheckLegal : Json → Prop
  | .obj [(k1, v1), (k2, v2), (k3, v3), (k4, v4)] =>
      k1 = "business_registration_type" ∧ IsStr v1 ∧
      k2 = "required_licenses" ∧ IsStrArr v2 ∧
      k3 = "taxation_basics" ∧ IsStr v3 ∧
      k4 = "compliance_checklist" ∧ IsStrArr v4
  | _ => False

/-- Shape of the documented `go_to_market_strategy` section. -/
def CheckGtm : Json → Prop
  | .obj [(k1, v1), (k2, v2), (k3, v3), (k4, v4)] =>
      k1 = "launch_plan" ∧ IsStr v1 ∧
      k2 = "marketing_channels" ∧ IsStrArr v2 ∧
      k3 = "risks" ∧ IsStrArr v3 ∧
      k4 = "mitigation_strategies" ∧ IsStrArr v4
  | _ => False

/-- Shape of the documented `action_roadmap` section. -/
def CheckRoadmap : Json → Prop
  | .obj [(k1, v1), (k2, v2), (k3, v3)] =>
      k1 = "months_0_3" ∧ IsStrArr v1 ∧
      k2 = "months_3_6" ∧ IsStrArr v2 ∧
      k3 = "months_6_12" ∧ IsStrArr v3
  | _ => False

/-- Full schema predicate on a JSON value: exactly the ten documented
top-level keys in order, array fields present as (possibly empty) arrays,
monetary fields non-negative numbers, free-text fields strings. -/
def SchemaOk : Json → Prop
  | .obj [(k1, s1), (k2, s2), (k3, s3), (k4, s4), (k5, s5),
          (k6, s6), (k7, s7), (k8, s8), (k9, s9), (k10, s10)] =>
      k1 = "startup_overview" ∧ CheckStartupOverview s1 ∧
      k2 = "market_analysis" ∧ CheckMarketAnalysis s2 ∧
      k3 = "business_model" ∧ CheckBusinessModel s3 ∧
      k4 = "swot_analysis" ∧ CheckSwot s4 ∧
      k5 = "budget_estimation" ∧ CheckBudget s5 ∧
      k6 = "funding_investment" ∧ CheckFunding s6 ∧
      k7 = "legal_compliance" ∧ CheckLegal s7 ∧
      k8 = "go_to_market_strategy" ∧ CheckGtm s8 ∧
      k9 = "action_roadmap" ∧ CheckRoadmap s9 ∧
      k10 = "export_summary" ∧ IsStr s10
  | _ => False

/-- Modelled from the spec: the Generation Engine numeric validation of
parsed content (spec section 4.5: budget figures must parse as non-negative
numbers; a violation triggers a retry, so accepted content satisfies this).
The backend validation code is not present under `src/`. -/
def validMonetary (c : BlueprintContent) : Bool :=
  decide (0 ≤ c.budget_estimation.initial_setup_cost) &&
  decide (0 ≤ c.budget_estimation.monthly_operational_expenses) &&
  decide (0 ≤ c.budget_estimation.technology_cost) &&
  decide (0 ≤ c.budget_estimation.marketing_cost) &&
  c.budget_estimation.breakdown.all (fun p => decide (0 ≤ p.2))

/-! ## Blueprint lifecycle -/

/-- The four documented blueprint status values (API documentation,
`POST /api/blueprint/generate`, Status Values). -/
inductive BStatus : Type where
  | pending
  | generating
  | completed
  | failed
deriving DecidableEq

/-- A blueprint record as documented for the blueprint endpoints:
identifier, owner, idea text, status, content, generation time and
timestamps. -/
structure BlueprintRec where
  id : String
  user_id : String
  startup_idea : String
  status : BStatus
  content : Option BlueprintContent
  generation_time : Option Rat
  created_at : String
  updated_at : String
deriving DecidableEq

/-- Modelled from the spec: the freshly persisted record produced by
`create(request)` (spec section 4.6), before any pipeline progress. -/
def mkPending (i u idea t : String) : BlueprintRec :=
  { id := i, user_id := u, startup_idea := idea, status := .pending,
    content := none, generation_time := none, created_at := t, updated_at := t }

/-- Modelled from the spec: the transitions of the Blueprint Lifecycle
Manager (spec sections 4.6 and 5), whose backend code is not present under
`src/`.  `startGenerating` marks a pending record as generating before the
pipeline is dispatched; `onSuccess` atomically attaches content and the
generation time while setting status completed; `onFailure` sets status
failed and leaves content null. -/
inductive BStep : BlueprintRec → BlueprintRec → Prop where
  | startGenerating (b : BlueprintRec) (t : String) (h : b.status = .pending) :
      BStep b { b with status := .generating, updated_at := t }
  | onSuccess (b : BlueprintRec) (c : BlueprintContent) (e : Rat) (t : String)
      (h : b.status = .generating) :
      BStep b { b with status := .completed, content := some c,
                       generation_time := some e, updated_at := t }
  | onFailure (b : BlueprintRec) (t : String) (h : b.status = .generating) :
      BStep b { b with status := .failed, updated_at := t }

/-- Forward progress measure on statuses: both `completed` and `failed` are
terminal. -/
def statusRank : BStatus → Nat
  | .pending => 0
  | .generating => 1
  | .completed => 2
  | .failed => 2

/-- Translated from the repository's API documentation: the `201 Created`
body documented for `POST /api/blueprint/generate` (the record returned
synchronously to the caller). -/
def generateResponseDoc : BlueprintRec :=
  { id := "blueprint_id", user_id := "user_id",
    startup_idea := "A mobile app that connects...",
    status := .generating, content := none, generation_time := none,
    created_at := "2026-01-19T10:00:00Z", updated_at := "2026-01-19T10:00:00Z" }

/-! ## Entry validation and pipeline dispatch -/

/-- Error category for synchronous request rejection (spec section 7). -/
inductive ApiError : Type where
  | validationError
deriving DecidableEq

/-- Modelled from the spec: entry validation of a `BlueprintRequest`
(spec section 3: `startupIdea: string (1..1000 chars)`, rejected if the idea
is empty or exceeds the length bound; the API notes fix the maximum startup
idea length at 1000 characters).  The backend validation code is not present
under `src/`. -/
def validStartupIdea (idea : String) : Bool :=
  decide (1 ≤ idea.length) && decide (idea.length ≤ 1000)

/-- Modelled from the spec: the synchronous part of the generate operation
(spec sections 4.6 and 7): validation happens before anything else; a valid
request persists a fresh record, an invalid one is rejected with a
validation error. -/
def generateEntry (i u idea t : String) : Except ApiError BlueprintRec :=
  if validStartupIdea idea then .ok (mkPending i u idea t)
  else .error .validationError

/-- Modelled from the spec: the number of pipeline dispatches caused by one
generate call — the pipeline is invoked exactly when the request passed
validation (a rejected request never reaches the pipeline, spec section 7). -/
def pipelineRuns (i u idea t : String) : Nat :=
  match generateEntry i u idea t with
  | .ok _ => 1
  | .error _ => 0

/-! ## Chat -/

/-- Error surfaced by chat mode (spec section 4.5: failures here are
recoverable for the caller). -/
inductive ChatError : Type where
  | emptyReply
deriving DecidableEq

/-- The chat response record documented for `POST /api/chat/message`. -/
structure ChatTurnResponse where
  message : String
  response : String
  timestamp : String
deriving DecidableEq

/-- Modelled from the spec: the chat operation (spec sections 4.5 and 6).
`reply` is the free-text string produced by the external model for the
message and optional blueprint context; the only validation is that it is a
non-empty string.  On success the caller receives a record echoing the
caller's message together with the response and a timestamp, as documented
for `POST /api/chat/message`. -/
def chatMessage (message : String) (_blueprintId : Option String)
    (reply : String) (now : String) : Except ChatError ChatTurnResponse :=
  if reply = "" then .error .emptyReply
  else .ok { message := message, response := reply, timestamp := now }

/-! ## API client response interceptor -/

/-- The browser-visible state touched by the axios response interceptor in
`frontend/src/lib/api.ts`: the `access_token` entry of `localStorage` and
`window.location.href`. -/
structure ClientState where
  access_token : Option String
  location : String
deriving DecidableEq

/-- Outcome of the interceptor: the error is always passed on via
`Promise.reject(error)`, carrying the original response status. -/
inductive InterceptOutcome : Type where
  | rejected (status : Option Nat)
deriving DecidableEq

/-- Translated from the response interceptor in `frontend/src/lib/api.ts`:
on a failing response whose status is 401 it removes the stored token and
redirects to `/login`; in every case it returns `Promise.reject(error)`.
`status` is `none` when the error carries no response (network failure),
matching the optional chaining `error.response?.status`. -/
def onResponseError (st : ClientState) (status : Option Nat) :
    ClientState × InterceptOutcome :=
  if status = some 401 then
    ({ st with access_token := none, location := "/login" }, .rejected status)
  else
    (st, .rejected status)

/-! ## Blueprint view page -/

/-- A rendered output fragment of the blueprint view page. -/
inductive Node : Type where
  | text (s : String)
  | block (title : String) (body : List Node)

/-- JavaScript-style runtime error raised by reading a property of `null`. -/
inductive JsErr : Type where
  | nullDeref
deriving DecidableEq

/-- A direct property read `o.f` on a possibly-null object: raises
`nullDeref` when the object is null. -/
def jsDeref {α β : Type} (o : Option α) (f : α → β) : Except JsErr β :=
  match o with
  | none => .error .nullDeref
  | some a => .ok (f a)

/-- An optional-chaining read `o?.f`: yields `undefined` (here `none`)
instead of an error when the object is null. -/
def optChain {α β : Type} (o : Option α) (f : α → β) : Option β := o.map f

/-- Translated from the Startup Overview block of
`frontend/src/app/blueprint/[id]/page.tsx`: the JSX is guarded by
`blueprint.content?.startup_overview &&`; inside the guard the fields are
read through direct accesses on `blueprint.content`. -/
def overviewBlock (content : Option BlueprintContent) : Except JsErr (List Node) :=
  if (optChain content (fun c => c.startup_overview)).isSome then do
    let ov ← jsDeref content (fun c => c.startup_overview)
    .ok [Node.block "Startup Overview"
      (ov.suggested_names.map Node.text ++
       [Node.text ov.industry, Node.text ov.problem_statement,
        Node.text ov.solution, Node.text ov.unique_value_proposition])]
  else .ok []

/-- Translated from the Market Analysis block of the blueprint view page,
guarded by `blueprint.content?.market_analysis &&`. -/
def marketBlock (content : Option BlueprintContent) : Except JsErr (List Node) :=
  if (optChain content (fun c => c.market_analysis)).isSome then do
    let ma ← jsDeref content (fun c => c.market_analysis)
    .ok [Node.block "Market Analysis"
      ([Node.text ma.target_audience, Node.text ma.market_size,
        Node.text ma.market_demand] ++
       ma.industry_trends.map Node.text ++
       ma.competitors.map (fun comp =>
         Node.block comp.name [Node.text comp.strength, Node.text comp.weakness]))]
  else .ok []

/-- Translated from the SWOT Analysis block of the blueprint view page,
guarded by `blueprint.content?.swot_analysis &&`. -/
def swotBlock (content : Option BlueprintContent) : Except JsErr (List Node) :=
  if (optChain content (fun c => c.swot_analysis)).isSome then do
    let sw ← jsDeref content (fun c => c.swot_analysis)
    .ok [Node.block "SWOT Analysis"
      (sw.strengths.map Node.text ++ sw.weaknesses.map Node.text ++
       sw.opportunities.map Node.text ++ sw.threats.map Node.text)]
  else .ok []

/-- Translated from the Action Roadmap block of the blueprint view page,
guarded by `blueprint.content?.action_roadmap &&`. -/
def roadmapBlock (content : Option BlueprintContent) : Except JsErr (List Node) :=
  if (optChain content (fun c => c.action_roadmap)).isSome then do
    let ar ← jsDeref content (fun c => c.action_roadmap)
    .ok [Node.block "Action Roadmap"
      (ar.months_0_3.map Node.text ++ ar.months_3_6.map Node.text ++
       ar.months_6_12.map Node.text)]
  else .ok []

/-- Translated from the content column of the blueprint view page
(`frontend/src/app/blueprint/[id]/page.tsx`): a `generating` record shows a
spinner notice, a `failed` record shows the failure notice, and otherwise
the section blocks selected by `activeSection` are rendered. -/
def renderContentColumn (status : String) (content : Option BlueprintContent)
    (active : String) : Except JsErr (List Node) :=
  if status = "generating" then .ok [Node.text "Generating Your Blueprint..."]
  else if status = "failed" then .ok [Node.text "Generation Failed"]
  else do
    let a ← if active = "overview" then overviewBlock content else .ok []
    let b ← if active = "market" then marketBlock content else .ok []
    let c ← if active = "swot" then swotBlock content else .ok []
    let d ← if active = "roadmap" then roadmapBlock content else .ok []
    .ok (a ++ b ++ c ++ d)

/-- A backend call issued by the view page. -/
inductive ApiCall : Type where
  | getById (id : String)
deriving DecidableEq

/-- Translated from `loadBlueprint` in the blueprint view page: one
`blueprintAPI.getById(params.id)` call; the calls made do not depend on the
returned status. -/
def loadBlueprintCalls (id : String) : List ApiCall := [ApiCall.getById id]

/-- Translated from the `useEffect(..., [params.id])` of the blueprint view
page: `loadBlueprint` runs once per change of the page id; the page sets no
timer and performs no other fetch. -/
def viewPageCalls (idChanges : List String) : List ApiCall :=
  idChanges.flatMap loadBlueprintCalls

/-! ## Vector index -/

/-- An entry of the in-memory vector index: chunk id, embedding vector, and
insertion position (spec section 4.2).  Embedding coordinates are rationals,
standing for the real-valued coordinates of the implementation. -/
structure IndexEntry where
  chunkId : String
  vec : List Rat
  idx : Nat
deriving DecidableEq

/-- Inner product of two vectors. -/
def dotProduct (u v : List Rat) : Rat :=
  (List.zipWith (fun a b => a * b) u v).sum

/-- Modelled from the spec: the similarity score of an index entry against a
query vector — inner product over normalized vectors, the metric the spec
allows for the Vector Index (spec section 4.2).  The backend index code is
not present under `src/`. -/
def score (q : List Rat) (e : IndexEntry) : Rat :=
  dotProduct q e.vec

/-- Ranking order used by `search`: higher score first, ties broken by
earlier insertion position (spec section 4.2). -/
def searchLE (q : List Rat) (a b : IndexEntry) : Prop :=
  score q b < score q a ∨ (score q a = score q b ∧ a.idx ≤ b.idx)

instance (q : List Rat) : DecidableRel (searchLE q) := fun a b =>
  inferInstanceAs (Decidable (score q b < score q a ∨
    (score q a = score q b ∧ a.idx ≤ b.idx)))

instance (q : List Rat) : IsTotal IndexEntry (searchLE q) where
  total a b := by
    rcases lt_trichotomy (score q a) (score q b) with h | h | h
    · exact Or.inr (Or.inl h)
    · rcases Nat.le_total a.idx b.idx with hi | hi
      · exact Or.inl (Or.inr ⟨h, hi⟩)
      · exact Or.inr (Or.inr ⟨h.symm, hi⟩)
    · exact Or.inl (Or.inl h)

instance (q : List Rat) : IsTrans IndexEntry (searchLE q) where
  trans a b c hab hbc := by
    rcases hab with h1 | ⟨h1, hi1⟩
    · rcases hbc with h2 | ⟨h2, hi2⟩
      · exact Or.inl (lt_trans h2 h1)
      · exact Or.inl (by rw [← h2]; exact h1)
    · rcases hbc with h2 | ⟨h2, hi2⟩
      · exact Or.inl (by rw [h1]; exact h2)
      · exact Or.inr ⟨h1.trans h2, le_trans hi1 hi2⟩

/-- Failures of vector-index operations (spec section 4.2). -/
inductive IndexError : Type where
  | invalidArgument
  | duplicateChunk
deriving DecidableEq

/-- Modelled from the spec: the in-memory nearest-neighbor index over
embedded chunks (spec section 4.2).  The backend index code is not present
under `src/`. -/
structure VectorIndex where
  entries : List IndexEntry
deriving DecidableEq

/-- The empty index. -/
def VectorIndex.empty : VectorIndex := ⟨[]⟩

/-- Modelled from the spec: `insert(chunkId, vector)` appends an entry; a
duplicate chunk id is rejected with `DuplicateChunkError` (spec section 4.2). -/
def VectorIndex.insert (ix : VectorIndex) (cid : String) (v : List Rat) :
    Except IndexError VectorIndex :=
  if ix.entries.any (fun e => e.chunkId == cid) then .error .duplicateChunk
  else .ok ⟨ix.entries ++ [{ chunkId := cid, vec := v, idx := ix.entries.length }]⟩

/-- Modelled from the spec: `search(queryVector, k)` returns up to `k`
entries sorted by descending similarity, ties broken by insertion order;
`k <= 0` fails with `InvalidArgument` (spec section 4.2). -/
def VectorIndex.search (ix : VectorIndex) (q : List Rat) (k : Int) :
    Except IndexError (List IndexEntry) :=
  if k ≤ 0 then .error .invalidArgument
  else .ok ((List.insertionSort (searchLE q) ix.entries).take k.toNat)

/-! ## Concrete sample values used by the witnesses -/

/-- A concrete `BlueprintContent`, following the example in the repository's
API documentation. -/
def sampleContent : BlueprintContent :=
  { startup_overview :=
      { suggested_names := ["FarmConnect", "AgriDirect", "FreshLink"],
        industry := "AgriTech",
        problem_statement := "Farmers lack direct market access.",
        solution := "A mobile marketplace for fresh produce.",
        unique_value_proposition := "Farm-fresh produce within 24 hours." },
    market_analysis :=
      { target_audience := "Urban consumers in tier-2 cities",
        market_size := "Large",
        market_demand := "Growing",
        industry_trends := ["Direct-to-consumer delivery"],
        competitors := [{ name := "Competitor A", strength := "Scale",
                          weakness := "High prices" }] },
    business_model :=
      { revenue_streams := ["Commission", "Subscriptions"],
        pricing_strategy := "Freemium",
        customer_acquisition := "Local partnerships" },
    swot_analysis :=
      { strengths := ["Freshness"], weaknesses := ["Logistics"],
        opportunities := ["Government schemes"], threats := ["Incumbents"] },
    budget_estimation :=
      { initial_setup_cost := 500000, monthly_operational_expenses := 100000,
        technology_cost := 200000, marketing_cost := 150000,
        breakdown := [("Development", 200000), ("Marketing", 150000)] },
    funding_investment :=
      { funding_options := ["Angel investment"],
        government_schemes := [{ name := "Startup India Seed Fund",
                                 amount := "Up to 20 lakhs",
                                 eligibility := "DPIIT-recognized startups" }],
        investor_readiness_tips := ["Prepare a pitch deck"] },
    legal_compliance :=
      { business_registration_type := "Private Limited Company",
        required_licenses := ["GST", "FSSAI"],
        taxation_basics := "GST applies to platform commissions.",
        compliance_checklist := ["Register the company"] },
    go_to_market_strategy :=
      { launch_plan := "Pilot in one city",
        marketing_channels := ["Social media"],
        risks := ["Supply variability"],
        mitigation_strategies := ["Backup suppliers"] },
    action_roadmap :=
      { months_0_3 := ["Build MVP"], months_3_6 := ["Pilot launch"],
        months_6_12 := ["Expand to three cities"] },
    export_summary := "A farm-to-consumer produce marketplace." }

/-- A concrete pending blueprint record. -/
def wBp0 : BlueprintRec :=
  mkPending "b1" "u1" "A mobile app connecting farmers to consumers" "t0"

/-- `wBp0` after the lifecycle manager marks it generating. -/
def wBp1 : BlueprintRec :=
  { wBp0 with status := .generating, updated_at := "t1" }

/-- `wBp1` after a successful generation attaches `sampleContent`. -/
def wBp2 : BlueprintRec :=
  { wBp1 with status := .completed, content := some sampleContent,
              generation_time := some 45, updated_at := "t2" }

/-- A concrete browser state with a stored token. -/
def sampleClientState : ClientState :=
  { access_token := some "tok", location := "/dashboard" }

/-- A concrete three-entry vector index with one-dimensional embeddings. -/
def sampleIndex : VectorIndex :=
  ⟨[{ chunkId := "A", vec := [1], idx := 0 },
    { chunkId := "B", vec := [1], idx := 1 },
    { chunkId := "C", vec := [3], idx := 2 }]⟩

/-! ## Helper lemmas -/

theorem isStrArr_ofStrList (xs : List String) :
    IsStrArr (Json.ofStrList xs) := by
  intro j hj
  obtain ⟨t, ht, rfl⟩ := List.mem_map.mp hj
  trivial

theorem all_checkCompetitor (cs : List Competitor) :
    IsArrOf CheckCompetitor (.arr (cs.map Competitor.toJson)) := by
  intro j hj
  obtain ⟨a, ha, rfl⟩ := List.mem_map.mp hj
  exact ⟨rfl, trivial, rfl, trivial, rfl, trivial⟩

theorem all_checkScheme (gs : List GovernmentScheme) :
    IsArrOf CheckScheme (.arr (gs.map GovernmentScheme.toJson)) := by
  intro j hj
  obtain ⟨a, ha, rfl⟩ := List.mem_map.mp hj
  exact ⟨rfl, trivial, rfl, trivial, rfl, trivial⟩

theorem allVals_of_breakdown (l : List (String × Int))
    (h : l.all (fun p => decide (0 ≤ p.2)) = true) :
    AllValsNonnegNum (Json.obj (l.map (fun p => (p.1, Json.num p.2)))) := by
  intro p hp
  obtain ⟨q, hq, rfl⟩ := List.mem_map.mp hp
  have hq2 : (0 : Int) ≤ q.2 := of_decide_eq_true (List.all_eq_true.mp h q hq)
  exact hq2

/-! ## Claim theorems -/

/-- Claim C1, counterexample: the record documented as the synchronous
`201 Created` response of `POST /api/blueprint/generate` does not have
status `pending`. -/
theorem generateResponse_not_pending :
    ¬ generateResponseDoc.status = BStatus.pending := by
  decide

/-- Claim C1 (amended): the Blueprint record returned synchronously by the
generate operation, as documented in the repository's API reference, has
status `generating` with `content` still null. -/
theorem generateResponse_status :
    generateResponseDoc.status = BStatus.generating ∧
    generateResponseDoc.content = none :=
  ⟨rfl, rfl⟩

/-- Claim C2: every blueprint record reachable from a freshly created
pending record through the lifecycle transitions satisfies the invariant
that status `completed` implies a non-null content whose serialization
carries exactly the ten documented top-level sections. -/
theorem completed_content_full (i u idea t : String) (b : BlueprintRec)
    (hr : Relation.ReflTransGen BStep (mkPending i u idea t) b) :
    b.status = BStatus.completed →
    ∃ c, b.content = some c ∧
      Json.topKeys (BlueprintContent.toJson c) = contentKeys := by
  induction hr with
  | refl => intro hc; cases hc
  | tail hab hbc ih =>
      intro hc
      cases hbc with
      | startGenerating t0 h0 => cases hc
      | onSuccess c e t0 h0 => exact ⟨c, rfl, rfl⟩
      | onFailure t0 h0 => cases hc

/-- Witness for claim C2 at a concrete three-state run ending in a
completed record. -/
theorem completed_content_full_witness :
    ∃ c, wBp2.content = some c ∧
      Json.topKeys (BlueprintContent.toJson c) = contentKeys :=
  completed_content_full "b1" "u1"
    "A mobile app connecting farmers to consumers" "t0" wBp2
    (Relation.ReflTransGen.tail
      (Relation.ReflTransGen.tail Relation.ReflTransGen.refl
        (BStep.startGenerating wBp0 "t1" rfl))
      (BStep.onSuccess wBp1 sampleContent 45 "t2" rfl))
    rfl

/-- Claim C3: every lifecycle transition keeps the blueprint id, strictly
advances the status rank, is one of `pending -> generating` or
`generating -> completed/failed`, and never leaves a `completed` or `failed`
record — so `completed -> generating`, `failed -> completed` and
`generating -> pending` are impossible and a retry after failure cannot
advance the old record. -/
theorem status_step_monotone (b b' : BlueprintRec) (h : BStep b b') :
    b'.id = b.id ∧
    statusRank b.status < statusRank b'.status ∧
    ((b.status = BStatus.pending ∧ b'.status = BStatus.generating) ∨
     (b.status = BStatus.generating ∧
       (b'.status = BStatus.completed ∨ b'.status = BStatus.failed))) ∧
    ¬ b.status = BStatus.completed ∧ ¬ b.status = BStatus.failed := by
  cases h with
  | startGenerating t0 h0 =>
      refine ⟨rfl, ?_, Or.inl ⟨h0, rfl⟩, ?_, ?_⟩ <;> simp [h0, statusRank]
  | onSuccess c e t0 h0 =>
      refine ⟨rfl, ?_, Or.inr ⟨h0, Or.inl rfl⟩, ?_, ?_⟩ <;> simp [h0, statusRank]
  | onFailure t0 h0 =>
      refine ⟨rfl, ?_, Or.inr ⟨h0, Or.inr rfl⟩, ?_, ?_⟩ <;> simp [h0, statusRank]

/-- Witness for claim C3 at the concrete `pending -> generating` step. -/
theorem status_step_monotone_witness :
    wBp1.id = wBp0.id ∧
    statusRank wBp0.status < statusRank wBp1.status ∧
    ((wBp0.status = BStatus.pending ∧ wBp1.status = BStatus.generating) ∨
     (wBp0.status = BStatus.generating ∧
       (wBp1.status = BStatus.completed ∨ wBp1.status = BStatus.failed))) ∧
    ¬ wBp0.status = BStatus.completed ∧ ¬ wBp0.status = BStatus.failed :=
  status_step_monotone wBp0 wBp1 (BStep.startGenerating wBp0 "t1" rfl)

/-- Claim C4: an empty or oversized startup idea is rejected synchronously
with a validation error and causes no pipeline dispatch, while every idea of
length 1 to 1000 is accepted and dispatches the pipeline exactly once. -/
theorem idea_validation (i u idea t : String) :
    ((idea.length = 0 ∨ 1000 < idea.length) →
      generateEntry i u idea t = .error ApiError.validationError ∧
      pipelineRuns i u idea t = 0) ∧
    (1 ≤ idea.length → idea.length ≤ 1000 →
      generateEntry i u idea t = .ok (mkPending i u idea t) ∧
      pipelineRuns i u idea t = 1) := by
  constructor
  · intro h
    have hv : validStartupIdea idea = false := by
      unfold validStartupIdea
      rcases h with h | h
      · simp [h]
      · simp [not_le.mpr h]
    simp [generateEntry, pipelineRuns, hv]
  · intro h1 h2
    have hv : validStartupIdea idea = true := by
      unfold validStartupIdea
      simp [h1, h2]
    simp [generateEntry, pipelineRuns, hv]

/-- Witness for claim C4: a concrete 45-character idea is accepted, and a
concrete empty idea is rejected without a pipeline run. -/
theorem idea_validation_witness :
    (generateEntry "b1" "u1" "A mobile app connecting farmers to consumers" "t0" =
        .ok (mkPending "b1" "u1"
          "A mobile app connecting farmers to consumers" "t0") ∧
      pipelineRuns "b1" "u1"
        "A mobile app connecting farmers to consumers" "t0" = 1) ∧
    (generateEntry "b2" "u1" "" "t0" = .error ApiError.validationError ∧
      pipelineRuns "b2" "u1" "" "t0" = 0) :=
  ⟨(idea_validation "b1" "u1"
      "A mobile app connecting farmers to consumers" "t0").2
      (by decide) (by decide),
   (idea_validation "b2" "u1" "" "t0").1 (Or.inl (by decide))⟩

/-- The `startup_overview` serialization satisfies its documented shape. -/
theorem checkStartupOverview_toJson (so : StartupOverview) :
    CheckStartupOverview (.obj [
      ("suggested_names", Json.ofStrList so.suggested_names),
      ("industry", .str so.industry),
      ("problem_statement", .str so.problem_statement),
      ("solution", .str so.solution),
      ("unique_value_proposition", .str so.unique_value_proposition)]) :=
  ⟨rfl, isStrArr_ofStrList _, rfl, trivial, rfl, trivial, rfl, trivial, rfl, trivial⟩

/-- The `market_analysis` serialization satisfies its documented shape. -/
theorem checkMarketAnalysis_toJson (ma : MarketAnalysis) :
    CheckMarketAnalysis (.obj [
      ("target_audience", .str ma.target_audience),
      ("market_size", .str ma.market_size),
      ("market_demand", .str ma.market_demand),
      ("industry_trends", Json.ofStrList ma.industry_trends),
      ("competitors", .arr (ma.competitors.map Competitor.toJson))]) :=
  ⟨rfl, trivial, rfl, trivial, rfl, trivial, rfl, isStrArr_ofStrList _, rfl,
   all_checkCompetitor _⟩

/-- The `business_model` serialization satisfies its documented shape. -/
theorem checkBusinessModel_toJson (bm : BusinessModel) :
    CheckBusinessModel (.obj [
      ("revenue_streams", Json.ofStrList bm.revenue_streams),
      ("pricing_strategy", .str bm.pricing_strategy),
      ("customer_acquisition", .str bm.customer_acquisition)]) :=
  ⟨rfl, isStrArr_ofStrList _, rfl, trivial, rfl, trivial⟩

/-- The `swot_analysis` serialization satisfies its documented shape. -/
theorem checkSwot_toJson (sw : SwotAnalysis) :
    CheckSwot (.obj [
      ("strengths", Json.ofStrList sw.strengths),
      ("weaknesses", Json.ofStrList sw.weaknesses),
      ("opportunities", Json.ofStrList sw.opportunities),
      ("threats", Json.ofStrList sw.threats)]) :=
  ⟨rfl, isStrArr_ofStrList _, rfl, isStrArr_ofStrList _, rfl,
   isStrArr_ofStrList _, rfl, isStrArr_ofStrList _⟩

/-- The `budget_estimation` serialization of validated content satisfies its
documented shape. -/
theorem checkBudget_toJson (b : BudgetEstimation)
    (h1 : 0 ≤ b.initial_setup_cost) (h2 : 0 ≤ b.monthly_operational_expenses)
    (h3 : 0 ≤ b.technology_cost) (h4 : 0 ≤ b.marketing_cost)
    (h5 : b.breakdown.all (fun p => decide (0 ≤ p.2)) = true) :
    CheckBudget (.obj [
      ("initial_setup_cost", .num b.initial_setup_cost),
      ("monthly_operational_expenses", .num b.monthly_operational_expenses),
      ("technology_cost", .num b.technology_cost),
      ("marketing_cost", .num b.marketing_cost),
      ("breakdown", .obj (b.breakdown.map (fun p => (p.1, Json.num p.2))))]) :=
  ⟨rfl, h1, rfl, h2, rfl, h3, rfl, h4, rfl, allVals_of_breakdown _ h5⟩

/-- The `funding_investment` serialization satisfies its documented shape. -/
theorem checkFunding_toJson (fi : FundingInvestment) :
    CheckFunding (.obj [
      ("funding_options", Json.ofStrList fi.funding_options),
      ("government_schemes", .arr (fi.government_schemes.map GovernmentScheme.toJson)),
      ("investor_readiness_tips", Json.ofStrList fi.investor_readiness_tips)]) :=
  ⟨rfl, isStrArr_ofStrList _, rfl, all_checkScheme _, rfl, isStrArr_ofStrList _⟩

/-- The `legal_compliance` serialization satisfies its documented shape. -/
theorem checkLegal_toJson (lc : LegalCompliance) :
    CheckLegal (.obj [
      ("business_registration_type", .str lc.business_registration_type),
      ("required_licenses", Json.ofStrList lc.required_licenses),
      ("taxation_basics", .str lc.taxation_basics),
      ("compliance_checklist", Json.ofStrList lc.compliance_checklist)]) :=
  ⟨rfl, trivial, rfl, isStrArr_ofStrList _, rfl, trivial, rfl, isStrArr_ofStrList _⟩

/-- The `go_to_market_strategy` serialization satisfies its documented shape. -/
theorem checkGtm_toJson (g : GoToMarketStrategy) :
    CheckGtm (.obj [
      ("launch_plan", .str g.launch_plan),
      ("marketing_channels", Json.ofStrList g.marketing_channels),
      ("risks", Json.ofStrList g.risks),
      ("mitigation_strategies", Json.ofStrList g.mitigation_strategies)]) :=
  ⟨rfl, trivial, rfl, isStrArr_ofStrList _, rfl, isStrArr_ofStrList _, rfl,
   isStrArr_ofStrList _⟩

/-- The `action_roadmap` serialization satisfies its documented shape. -/
theorem checkRoadmap_toJson (ar : ActionRoadmap) :
    CheckRoadmap (.obj [
      ("months_0_3", Json.ofStrList ar.months_0_3),
      ("months_3_6", Json.ofStrList ar.months_3_6),
      ("months_6_12", Json.ofStrList ar.months_6_12)]) :=
  ⟨rfl, isStrArr_ofStrList _, rfl, isStrArr_ofStrList _, rfl, isStrArr_ofStrList _⟩

/-- Claim C5: the serialization of any blueprint content accepted by the
monetary validation has exactly the ten documented top-level keys, every
array field present as a (possibly empty) array, every monetary field a
non-negative number, and every free-text field a string. -/
theorem content_schema_conformant (c : BlueprintContent)
    (hv : validMonetary c = true) :
    Json.topKeys (BlueprintContent.toJson c) = contentKeys ∧
    SchemaOk (BlueprintContent.toJson c) := by
  simp only [validMonetary, Bool.and_eq_true, decide_eq_true_eq] at hv
  obtain ⟨⟨⟨⟨h1, h2⟩, h3⟩, h4⟩, h5⟩ := hv
  exact ⟨rfl,
    rfl, checkStartupOverview_toJson c.startup_overview,
    rfl, checkMarketAnalysis_toJson c.market_analysis,
    rfl, checkBusinessModel_toJson c.business_model,
    rfl, checkSwot_toJson c.swot_analysis,
    rfl, checkBudget_toJson c.budget_estimation h1 h2 h3 h4 h5,
    rfl, checkFunding_toJson c.funding_investment,
    rfl, checkLegal_toJson c.legal_compliance,
    rfl, checkGtm_toJson c.go_to_market_strategy,
    rfl, checkRoadmap_toJson c.action_roadmap,
    rfl, trivial⟩

/-- Witness for claim C5 at the concrete sample content. -/
theorem content_schema_conformant_witness :
    Json.topKeys (BlueprintContent.toJson sampleContent) = contentKeys ∧
    SchemaOk (BlueprintContent.toJson sampleContent) :=
  content_schema_conformant sampleContent (by decide)

/-- Claim C6, counterexample: the blueprint view page issues exactly one
`getById` call per mount, independent of the returned status, so a client
viewing a blueprint stuck at status `generating` does not poll the get
operation a second time. -/
theorem view_page_single_fetch :
    viewPageCalls ["b1"] = [ApiCall.getById "b1"] ∧
    ¬ 2 ≤ (viewPageCalls ["b1"]).length := by
  exact ⟨rfl, by decide⟩

/-- Claim C6 (amended): the generate call returns the record before
generation has produced anything (documented response carries null content
and null generation time), and the client observes later status changes by
one `getById` fetch per view-page mount rather than automatic repeated
polling. -/
theorem generate_nonblocking_single_poll :
    generateResponseDoc.content = none ∧
    generateResponseDoc.generation_time = none ∧
    viewPageCalls ["b1"] = [ApiCall.getById "b1"] :=
  ⟨rfl, rfl, rfl⟩

/-- Claim C8: whenever the model produces a non-empty reply, the chat
operation succeeds with a record containing exactly the caller's message,
a non-empty response string, and a timestamp. -/
theorem chat_response_contract (m : String) (b : Option String)
    (r t : String) (h : ¬ r = "") :
    ∃ out, chatMessage m b r t = .ok out ∧ out.message = m ∧
      ¬ out.response = "" ∧ out.timestamp = t := by
  refine ⟨{ message := m, response := r, timestamp := t }, ?_, rfl, h, rfl⟩
  simp [chatMessage, h]

/-- Witness for claim C8 at a concrete chat exchange. -/
theorem chat_response_contract_witness :
    ∃ out, chatMessage "How can I improve my marketing strategy?"
        (some "b1") "Here are some suggestions." "ts1" = .ok out ∧
      out.message = "How can I improve my marketing strategy?" ∧
      ¬ out.response = "" ∧ out.timestamp = "ts1" :=
  chat_response_contract "How can I improve my marketing strategy?"
    (some "b1") "Here are some suggestions." "ts1" (by decide)

/-- Claim C9: the response interceptor always re-rejects the error; on a
401 status it clears the stored token and redirects to the login page, and
on any other status it leaves the client state unchanged. -/
theorem interceptor_401_contract (st : ClientState) (status : Option Nat) :
    (onResponseError st status).2 = InterceptOutcome.rejected status ∧
    (status = some 401 →
      (onResponseError st status).1 =
        { st with access_token := none, location := "/login" }) ∧
    (¬ status = some 401 → (onResponseError st status).1 = st) := by
  by_cases h : status = some 401 <;> simp [onResponseError, h]

/-- Witness for claim C9 at a concrete client state, for both a 401 and a
500 response. -/
theorem interceptor_401_contract_witness :
    (onResponseError sampleClientState (some 401)).1 =
      { sampleClientState with access_token := none, location := "/login" } ∧
    (onResponseError sampleClientState (some 500)).1 = sampleClientState :=
  ⟨(interceptor_401_contract sampleClientState (some 401)).2.1 rfl,
   (interceptor_401_contract sampleClientState (some 500)).2.2 (by decide)⟩

/-- Claim C10: for any status other than `generating` and `failed`
(including `pending`), rendering the content column of the blueprint view
page with a null content raises no null dereference and produces an empty
content area. -/
theorem null_content_renders_empty (status active : String)
    (hg : ¬ status = "generating") (hf : ¬ status = "failed") :
    renderContentColumn status none active = .ok [] := by
  simp [renderContentColumn, hg, hf, overviewBlock, marketBlock, swotBlock,
        roadmapBlock, optChain]
  rfl

/-- Witness for claim C10 at a concrete pending record on the overview
section. -/
theorem null_content_renders_empty_witness :
    renderContentColumn "pending" none "overview" = .ok [] :=
  null_content_renders_empty "pending" "overview" (by decide) (by decide)

/-- Claim C7: over an unchanged index with pairwise-distinct insertion
positions, `search(q, k)` with `k > 0` returns `min k N` entries sorted by
non-increasing score with ties broken by earlier insertion, the result for
`k` is a prefix of the result for any `k2 >= k`, and `k <= 0` fails with
`InvalidArgument`. -/
theorem vectorIndex_search_contract (ix : VectorIndex) (q : List Rat)
    (k : Int) (hwf : (ix.entries.map IndexEntry.idx).Nodup) :
    (k ≤ 0 → VectorIndex.search ix q k = .error IndexError.invalidArgument) ∧
    (0 < k → ∃ res, VectorIndex.search ix q k = .ok res ∧
      res.length = min k.toNat ix.entries.length ∧
      res.Pairwise (fun a b => score q b < score q a ∨
        (score q a = score q b ∧ a.idx < b.idx)) ∧
      ∀ k2 : Int, k ≤ k2 → ∃ res2, VectorIndex.search ix q k2 = .ok res2 ∧
        ∃ tl, res2 = res ++ tl) := by
  constructor
  · intro hk
    simp [VectorIndex.search, hk]
  · intro hk
    have hk1 : ¬ k ≤ 0 := not_le.mpr hk
    refine ⟨(List.insertionSort (searchLE q) ix.entries).take k.toNat,
      ?_, ?_, ?_, ?_⟩
    · simp [VectorIndex.search, hk1]
    · rw [List.length_take, List.length_insertionSort]
    · have hs : List.Sorted (searchLE q)
          (List.insertionSort (searchLE q) ix.entries) :=
        List.sorted_insertionSort (searchLE q) ix.entries
      have hperm : List.Perm (List.insertionSort (searchLE q) ix.entries)
          ix.entries :=
        List.perm_insertionSort (searchLE q) ix.entries
      have hnd : ((List.insertionSort (searchLE q) ix.entries).map
          IndexEntry.idx).Nodup :=
        ((hperm.map IndexEntry.idx).nodup_iff).mpr hwf
      have hne : (List.insertionSort (searchLE q) ix.entries).Pairwise
          (fun a b => ¬ a.idx = b.idx) := List.pairwise_map.mp hnd
      have hcomb := hs.and hne
      have htake := List.Pairwise.sublist
        (List.take_sublist k.toNat (List.insertionSort (searchLE q) ix.entries))
        hcomb
      refine htake.imp ?_
      rintro a b ⟨hle, hab⟩
      rcases hle with h | ⟨heq, hidx⟩
      · exact Or.inl h
      · exact Or.inr ⟨heq, lt_of_le_of_ne hidx hab⟩
    · intro k2 hk2
      have hk21 : ¬ k2 ≤ 0 := not_le.mpr (lt_of_lt_of_le hk hk2)
      have hmin : k.toNat ≤ k2.toNat := Int.toNat_le_toNat hk2
      refine ⟨(List.insertionSort (searchLE q) ix.entries).take k2.toNat,
        by simp [VectorIndex.search, hk21], ?_⟩
      refine ⟨((List.insertionSort (searchLE q) ix.entries).take k2.toNat).drop
        k.toNat, ?_⟩
      have h1 : ((List.insertionSort (searchLE q) ix.entries).take
          k2.toNat).take k.toNat =
          (List.insertionSort (searchLE q) ix.entries).take k.toNat := by
        rw [List.take_take, min_eq_left hmin]
      rw [← h1]
      exact (List.take_append_drop _ _).symm

/-- Witness for claim C7: searching the concrete three-entry index with a
one-dimensional query at `k = 2`. -/
theorem vectorIndex_search_contract_witness :
    ((2 : Int) ≤ 0 →
      VectorIndex.search sampleIndex [1] 2 = .error IndexError.invalidArgument) ∧
    (0 < (2 : Int) → ∃ res, VectorIndex.search sampleIndex [1] 2 = .ok res ∧
      res.length = min (2 : Int).toNat sampleIndex.entries.length ∧
      res.Pairwise (fun a b => score [1] b < score [1] a ∨
        (score [1] a = score [1] b ∧ a.idx < b.idx)) ∧
      ∀ k2 : Int, 2 ≤ k2 → ∃ res2, VectorIndex.search sampleIndex [1] k2 = .ok res2 ∧
        ∃ tl, res2 = res ++ tl) :=
  vectorIndex_search_contract sampleIndex [1] 2 (by decide)

end StartGenie
